import Mathlib

/-!
Verification of the agent-based housing-market model of the
`real_estate_toolkit` repository (files `house.py`, `market.py`,
`house_market.py`, `consumers.py`, `simulation.py`).

Python floats are modelled as exact rationals (`ℚ`), Python `round(x, 2)`
as round-half-to-even on hundredths, object references held by a
`Consumer` into the market's house list as indices (`Option ℕ`), and a
Python exception as `Except String` / `Option` in the result type.
-/

/-- Enumeration `QualityScore` of `house.py` (EXCELLENT=5 … POOR=1). -/
inductive QualityScore where
  | EXCELLENT
  | GOOD
  | AVERAGE
  | FAIR
  | POOR
deriving DecidableEq, Repr

/-- Dataclass `House` of `house.py`.  `segment` is the house's free-form
label (an `Optional[str]`), distinct from the consumer segment enum. -/
structure House where
  id : Int
  price : ℚ
  area : ℚ
  bedrooms : Int
  year_built : Int
  quality_score : Option QualityScore := none
  available : Bool := true
  segment : Option String := none
deriving DecidableEq, Repr

/-- Enumeration `Segment` of `consumers.py`. -/
inductive Segment where
  | FANCY
  | OPTIMIZER
  | AVERAGE
deriving DecidableEq, Repr

/-- The `.name` attribute of a `Segment` enum member, as used by
`house_market.py`'s `get_houses_that_meet_requirements`. -/
def Segment.name : Segment → String
  | .FANCY => "FANCY"
  | .OPTIMIZER => "OPTIMIZER"
  | .AVERAGE => "AVERAGE"

/-- Dataclass `Consumer` of `consumers.py`.  `house` holds the index of
the referenced house in the market's list (`none` = Python `None`). -/
structure Consumer where
  id : Int
  annual_income : ℚ
  children_number : Int
  segment : Segment
  house : Option Nat := none
  savings : ℚ := 0
  saving_rate : ℚ := 3/10
  interest_rate : ℚ := 5/100
deriving DecidableEq, Repr

/-- Round a rational to the nearest integer, ties to even — the rounding
mode of Python's builtin `round`. -/
def round_half_even (q : ℚ) : Int :=
  if q - (Int.floor q : ℚ) < 1/2 then Int.floor q
  else if (1:ℚ)/2 < q - (Int.floor q : ℚ) then Int.floor q + 1
  else if Int.floor q % 2 = 0 then Int.floor q else Int.floor q + 1

/-- Python's `round(q, 2)`: round to 2 decimal places. -/
def round2 (q : ℚ) : ℚ := (round_half_even (q * 100) : ℚ) / 100

/-- One year of the savings loop body in `Consumer.compute_savings`:
`savings += annual_income * saving_rate; savings *= (1 + interest_rate)`. -/
def savings_step (c : Consumer) (s : ℚ) : ℚ :=
  (s + c.annual_income * c.saving_rate) * (1 + c.interest_rate)

/-- `Consumer.compute_savings(years)` of `consumers.py`: run the yearly
step `years` times, then round to 2 decimals once, after the loop. -/
def compute_savings (c : Consumer) (years : Nat) : Consumer :=
  { c with savings := round2 ((savings_step c)^[years] c.savings) }

/-- C1: `compute_savings` is the recurrence
`savings = (savings + annual_income * saving_rate) * (1 + interest_rate)`
iterated once per year, with rounding to 2 decimals applied exactly once
after the final iteration; on `initial_savings=20000`, `annual_income=80000`,
`saving_rate=0.3`, `interest_rate=0.05`, `years=5` the result is exactly
`164771.54`. -/
theorem compute_savings_spec :
    (∀ (c : Consumer) (years : Nat),
      (compute_savings c years).savings =
        round2 ((fun s => (s + c.annual_income * c.saving_rate) *
          (1 + c.interest_rate))^[years] c.savings)) ∧
    (compute_savings
      { id := 1, annual_income := 80000, children_number := 0,
        segment := Segment.AVERAGE, house := none, savings := 20000,
        saving_rate := 3/10, interest_rate := 5/100 } 5).savings
      = 16477154/100 := by
  constructor
  · intro c years
    rfl
  · show round2 ((savings_step _)^[5] 20000) = _
    have h5 : (savings_step
        { id := 1, annual_income := 80000, children_number := 0,
          segment := Segment.AVERAGE, house := none, savings := 20000,
          saving_rate := 3/10, interest_rate := 5/100 })^[5] (20000 : ℚ)
        = 16477153875/100000 := by
      show savings_step _ (savings_step _ (savings_step _ (savings_step _
        (savings_step _ 20000)))) = _
      norm_num [savings_step]
    rw [h5]
    have hf : Int.floor ((16477153875/100000 : ℚ) * 100) = 16477153 := by
      rw [Int.floor_eq_iff]
      constructor <;> norm_num
    simp only [round2, round_half_even, hf]
    norm_num

/-- `House.calculate_price_per_square_foot` of `house.py`: guard `area == 0`
first (return 0.0), otherwise `round(price / area, 2)`. -/
def calculate_price_per_square_foot (h : House) : ℚ :=
  if h.area = 0 then 0
  else round2 (h.price / h.area)

/-- `House.is_new_construction(current_year=2024)` of `house.py`:
`age = current_year - year_built`; a negative age returns false,
otherwise the result is `age < 5`. -/
def is_new_construction (h : House) (current_year : Int := 2024) : Bool :=
  if current_year - h.year_built < 0 then false
  else decide (current_year - h.year_built < 5)

/-- `House.sell_house` of `house.py`: mark the house as sold. -/
def sell_house (h : House) : House := { h with available := false }

/-- `House.get_quality_score` of `house.py`.  Python mutates
`self.quality_score`; the embedding returns the updated house.  If the
score is already set the call is a no-op; otherwise three sub-scores on
fixed thresholds are averaged and mapped to the enumeration. -/
def get_quality_score (h : House) : House :=
  match h.quality_score with
  | some _ => h
  | none =>
    let age : Int := 2024 - h.year_built
    let age_score : ℚ :=
      if age ≤ 5 then 5 else if age ≤ 10 then 4 else if age ≤ 20 then 3
      else if age ≤ 50 then 2 else 1
    let size_score : ℚ :=
      if h.area ≥ 3000 then 5 else if h.area ≥ 2000 then 4
      else if h.area ≥ 1500 then 3 else if h.area ≥ 1000 then 2 else 1
    let bedrooms_score : ℚ :=
      if h.bedrooms ≥ 5 then 5 else if h.bedrooms ≥ 4 then 4
      else if h.bedrooms ≥ 3 then 3 else if h.bedrooms ≥ 2 then 2 else 1
    let average_score : ℚ := (age_score + size_score + bedrooms_score) / 3
    let q : QualityScore :=
      if average_score ≥ 9/2 then QualityScore.EXCELLENT
      else if average_score ≥ 7/2 then QualityScore.GOOD
      else if average_score ≥ 5/2 then QualityScore.AVERAGE
      else if average_score ≥ 3/2 then QualityScore.FAIR
      else QualityScore.POOR
    { h with quality_score := some q }

/-- C7: `calculate_price_per_square_foot` returns 0 when `area = 0`
(no division fault is possible), and `round(price/area, 2)` otherwise. -/
theorem price_per_square_foot_spec (h : House) :
    (h.area = 0 → calculate_price_per_square_foot h = 0) ∧
    (h.area ≠ 0 → calculate_price_per_square_foot h = round2 (h.price / h.area)) := by
  constructor
  · intro hz
    simp [calculate_price_per_square_foot, hz]
  · intro hnz
    simp [calculate_price_per_square_foot, hnz]

/-- Witness for C7 at concrete houses: a zero-area house yields 0, a
house with `price=200, area=8` yields the rounded ratio. -/
theorem price_per_square_foot_witness :
    calculate_price_per_square_foot
      { id := 1, price := 100, area := 0, bedrooms := 2, year_built := 2000 } = 0 ∧
    calculate_price_per_square_foot
      { id := 2, price := 200, area := 8, bedrooms := 2, year_built := 2000 }
      = round2 ((200 : ℚ) / 8) :=
  ⟨(price_per_square_foot_spec _).1 rfl,
   (price_per_square_foot_spec
      { id := 2, price := 200, area := 8, bedrooms := 2, year_built := 2000 }).2
      (by norm_num)⟩

/-- C8: `is_new_construction` is true exactly when
`0 ≤ current_year - year_built < 5`; in particular a house built exactly
5 years before the reference year is not new, one built exactly 4 years
before is new, and a `year_built` in the future is never new. -/
theorem is_new_construction_spec :
    (∀ (h : House) (y : Int),
      is_new_construction h y = true ↔
        0 ≤ y - h.year_built ∧ y - h.year_built < 5) ∧
    is_new_construction
      { id := 1, price := 1, area := 1, bedrooms := 1, year_built := 2019 } 2024 = false ∧
    is_new_construction
      { id := 2, price := 1, area := 1, bedrooms := 1, year_built := 2020 } 2024 = true ∧
    is_new_construction
      { id := 3, price := 1, area := 1, bedrooms := 1, year_built := 2025 } 2024 = false := by
  refine ⟨fun h y => ?_, by decide, by decide, by decide⟩
  unfold is_new_construction
  by_cases hneg : y - h.year_built < 0
  · simp [hneg]
    omega
  · simp [hneg]
    omega

/-- Helper: `get_quality_score` is the identity on a house whose score is
already set (the early-return branch of the Python code). -/
theorem get_quality_score_of_isSome (h : House)
    (hq : h.quality_score.isSome = true) : get_quality_score h = h := by
  obtain ⟨i, p, a, b, y, qs, av, sg⟩ := h
  cases qs with
  | none => simp at hq
  | some q => rfl

/-- Helper: after one call to `get_quality_score` the score is set. -/
theorem get_quality_score_isSome (h : House) :
    (get_quality_score h).quality_score.isSome = true := by
  obtain ⟨i, p, a, b, y, qs, av, sg⟩ := h
  cases qs with
  | none => rfl
  | some q => rfl

/-- C9: the quality-score computation is idempotent — on a house with a
score already set it is a no-op, hence a second call returns exactly the
result of the first and never changes a score once set. -/
theorem get_quality_score_idempotent (h : House) :
    get_quality_score (get_quality_score h) = get_quality_score h ∧
    (h.quality_score.isSome = true → get_quality_score h = h) :=
  ⟨get_quality_score_of_isSome _ (get_quality_score_isSome h),
   fun hq => get_quality_score_of_isSome h hq⟩

/-- Witness for C9 at a concrete house with a preset score. -/
theorem get_quality_score_idempotent_witness :
    get_quality_score (get_quality_score
      { id := 1, price := 100, area := 900, bedrooms := 2, year_built := 2000,
        quality_score := some QualityScore.GOOD })
      = get_quality_score
      { id := 1, price := 100, area := 900, bedrooms := 2, year_built := 2000,
        quality_score := some QualityScore.GOOD } ∧
    get_quality_score
      { id := 1, price := 100, area := 900, bedrooms := 2, year_built := 2000,
        quality_score := some QualityScore.GOOD }
      = { id := 1, price := 100, area := 900, bedrooms := 2, year_built := 2000,
          quality_score := some QualityScore.GOOD } :=
  ⟨(get_quality_score_idempotent _).1, (get_quality_score_idempotent _).2 rfl⟩

/-- `HousingMarket.get_house_by_id` of `market.py` (the class imported by
`consumers.py`): linear scan, first match, `None` if absent. -/
def get_house_by_id (houses : List House) (house_id : Int) : Option House :=
  houses.find? fun h => h.id == house_id

/-- `HousingMarket.get_house_by_id` of `house_market.py` (the class
imported by `simulation.py`): identical linear scan. -/
def get_house_by_id_hm (houses : List House) (house_id : Int) : Option House :=
  houses.find? fun h => h.id == house_id

/-- `HousingMarket.calculate_average_price` of `market.py`: optional
bedroom filter, 0.0 on an empty filtered list, otherwise the mean price. -/
def calculate_average_price (houses : List House) (bedrooms : Option Int) : ℚ :=
  let filtered := match bedrooms with
    | none => houses
    | some b => houses.filter fun h => h.bedrooms == b
  if filtered.isEmpty then 0
  else (filtered.map House.price).sum / filtered.length

/-- `HousingMarket.calculate_average_price` of `house_market.py`:
identical to the `market.py` version. -/
def calculate_average_price_hm (houses : List House) (bedrooms : Option Int) : ℚ :=
  let filtered := match bedrooms with
    | none => houses
    | some b => houses.filter fun h => h.bedrooms == b
  if filtered.isEmpty then 0
  else (filtered.map House.price).sum / filtered.length

/-- The membership condition of `house_market.py`'s
`get_houses_that_meet_requirements` comprehension:
`price <= max_price` and the segment present and matching the requested
label case-insensitively. -/
def meets_requirements (h : House) (max_price : ℚ) (label : String) : Bool :=
  decide (h.price ≤ max_price) &&
    match h.segment with
    | none => false
    | some s => s.toLower == label.toLower

/-- The comprehension of `market.py`'s `get_houses_that_meet_requirements`:
for each house, `house.price <= max_price and house.segment.lower() ==
segment.lower()` evaluated left to right — when `price <= max_price`
short-circuits to true on a house whose `segment` is `None`, Python
raises `AttributeError` on `None.lower()`. -/
def requirements_filter (houses : List House) (max_price : ℚ)
    (segment : String) : Except String (List House) :=
  match houses with
  | [] => Except.ok []
  | h :: t =>
    if h.price ≤ max_price then
      match h.segment with
      | none => Except.error "AttributeError"
      | some s =>
        match requirements_filter t max_price segment with
        | Except.error e => Except.error e
        | Except.ok r =>
            Except.ok (if s.toLower == segment.toLower then h :: r else r)
    else requirements_filter t max_price segment

/-- `HousingMarket.get_houses_that_meet_requirements` of `market.py`:
returns the matching houses, or `None` when the list is empty; raises
(`Except.error`) when the comprehension hits a `None` segment. -/
def get_houses_that_meet_requirements (houses : List House) (max_price : ℚ)
    (segment : String) : Except String (Option (List House)) :=
  match requirements_filter houses max_price segment with
  | Except.error e => Except.error e
  | Except.ok r => Except.ok (if r.isEmpty then none else some r)

/-- `HousingMarket.get_houses_that_meet_requirements` of `house_market.py`:
the segment parameter is an enum member converted via `.name`; houses
with a `None` segment are skipped by the `is not None` guard, so no
fault is possible; returns `None` when nothing matches. -/
def get_houses_that_meet_requirements_hm (houses : List House)
    (max_price : ℚ) (segment : Segment) : Option (List House) :=
  let r := houses.filter fun h => meets_requirements h max_price segment.name
  if r.isEmpty then none else some r

/-- Helper: when every house passing the price test carries a segment
label, the faulting comprehension of `market.py` completes and computes
the same filter as `house_market.py`'s guarded comprehension. -/
theorem requirements_filter_ok (mp : ℚ) (label : String) :
    ∀ houses : List House, (∀ h ∈ houses, h.price ≤ mp → h.segment ≠ none) →
      requirements_filter houses mp label =
        Except.ok (houses.filter fun h => meets_requirements h mp label)
  | [], _ => rfl
  | h :: t, hseg => by
    have IH := requirements_filter_ok mp label t
      (fun x hx hpx => hseg x (List.mem_cons_of_mem _ hx) hpx)
    by_cases hp : h.price ≤ mp
    · cases hs : h.segment with
      | none => exact absurd hs (hseg h (List.mem_cons_self _ _) hp)
      | some s =>
        rw [requirements_filter, if_pos hp, hs, IH]
        rw [List.filter_cons]
        simp only [meets_requirements, hs, decide_eq_true hp, Bool.true_and]
    · rw [requirements_filter, if_neg hp, IH, List.filter_cons]
      simp only [meets_requirements, decide_eq_false hp, Bool.false_and]
      simp

/-- Helper: under the same segment-presence condition the two
`get_houses_that_meet_requirements` implementations agree (the
`market.py` one succeeds with the `house_market.py` result). -/
theorem requirements_agree (houses : List House) (mp : ℚ) (seg : Segment)
    (hseg : ∀ h ∈ houses, h.price ≤ mp → h.segment ≠ none) :
    get_houses_that_meet_requirements houses mp seg.name =
      Except.ok (get_houses_that_meet_requirements_hm houses mp seg) := by
  rw [get_houses_that_meet_requirements,
    requirements_filter_ok mp seg.name houses hseg]
  rfl

/-- C5 counterexample: on a market holding one house whose `segment` is
absent (`None`) and whose price passes the filter, `market.py`'s
`get_houses_that_meet_requirements` raises `AttributeError`
(`None.lower()`), contradicting "without ever raising a fault". -/
theorem requirements_fault_counterexample :
    get_houses_that_meet_requirements
      [{ id := 1, price := 100, area := 50, bedrooms := 2, year_built := 2000,
         segment := none }] 200 "AVERAGE" = Except.error "AttributeError" := rfl

/-- C5 (amended): `house_market.py`'s version returns exactly the houses
with `price ≤ max_price` and a case-insensitive segment match (houses
with an absent segment never match), returns `none` when nothing
matches, and never faults; `market.py`'s version has the same behavior
only on inventories where every house passing the price test has a
segment present — on a `None` segment it raises instead. -/
theorem requirements_spec (houses : List House) (mp : ℚ) (seg : Segment) :
    (get_houses_that_meet_requirements_hm houses mp seg =
      if (houses.filter fun h => meets_requirements h mp seg.name).isEmpty
      then none
      else some (houses.filter fun h => meets_requirements h mp seg.name)) ∧
    (get_houses_that_meet_requirements_hm houses mp seg = none ↔
      houses.filter (fun h => meets_requirements h mp seg.name) = []) ∧
    ((∀ h ∈ houses, h.price ≤ mp → h.segment ≠ none) →
      get_houses_that_meet_requirements houses mp seg.name =
        Except.ok (get_houses_that_meet_requirements_hm houses mp seg)) := by
  refine ⟨rfl, ?_, fun hseg => requirements_agree houses mp seg hseg⟩
  rw [get_houses_that_meet_requirements_hm]
  cases hfilt : houses.filter fun h => meets_requirements h mp seg.name with
  | nil => simp [hfilt]
  | cons a t => simp [hfilt]

/-- Witness for C5 at a one-house market whose house carries a segment
label, discharging the segment-presence hypothesis. -/
theorem requirements_spec_witness :
    (get_houses_that_meet_requirements_hm
      [{ id := 1, price := 100, area := 50, bedrooms := 2, year_built := 2000,
         segment := some "average" }] 200 Segment.AVERAGE =
      if ([{ id := 1, price := 100, area := 50, bedrooms := 2, year_built := 2000,
             segment := some "average" }].filter fun h =>
          meets_requirements h 200 Segment.AVERAGE.name).isEmpty
      then none
      else some ([{ id := 1, price := 100, area := 50, bedrooms := 2,
                    year_built := 2000, segment := some "average" }].filter fun h =>
          meets_requirements h 200 Segment.AVERAGE.name)) ∧
    get_houses_that_meet_requirements
      [{ id := 1, price := 100, area := 50, bedrooms := 2, year_built := 2000,
         segment := some "average" }] 200 Segment.AVERAGE.name =
      Except.ok (get_houses_that_meet_requirements_hm
        [{ id := 1, price := 100, area := 50, bedrooms := 2, year_built := 2000,
           segment := some "average" }] 200 Segment.AVERAGE) :=
  ⟨(requirements_spec _ 200 Segment.AVERAGE).1,
   (requirements_spec _ 200 Segment.AVERAGE).2.2 (by decide)⟩

/-- C6 counterexample: the two `HousingMarket` classes are not
behaviorally equivalent — on a house with price below the bound and an
absent segment, `market.py`'s requirements query raises while
`house_market.py`'s returns `none`. -/
theorem market_classes_equiv_counterexample :
    get_houses_that_meet_requirements
      [{ id := 9, price := 150, area := 40, bedrooms := 3, year_built := 1990,
         segment := none }] 300 Segment.FANCY.name = Except.error "AttributeError" ∧
    get_houses_that_meet_requirements_hm
      [{ id := 9, price := 150, area := 40, bedrooms := 3, year_built := 1990,
         segment := none }] 300 Segment.FANCY = none :=
  ⟨rfl, rfl⟩

/-- C6 (amended): `get_house_by_id` and `calculate_average_price` agree
between `market.py` and `house_market.py` on every inventory and input;
`get_houses_that_meet_requirements` agrees (with `market.py` taking the
enum's name as its string label) only on inventories where every house
passing the price test has a segment present — otherwise `market.py`
raises where `house_market.py` does not. -/
theorem market_classes_equiv (houses : List House) (house_id : Int)
    (bedrooms : Option Int) (mp : ℚ) (seg : Segment) :
    get_house_by_id houses house_id = get_house_by_id_hm houses house_id ∧
    calculate_average_price houses bedrooms = calculate_average_price_hm houses bedrooms ∧
    ((∀ h ∈ houses, h.price ≤ mp → h.segment ≠ none) →
      get_houses_that_meet_requirements houses mp seg.name =
        Except.ok (get_houses_that_meet_requirements_hm houses mp seg)) :=
  ⟨rfl, rfl, fun hseg => requirements_agree houses mp seg hseg⟩

/-- Witness for C6 on a concrete two-house inventory with segments
present, discharging the segment-presence hypothesis. -/
theorem market_classes_equiv_witness :
    get_house_by_id
      [{ id := 3, price := 120, area := 60, bedrooms := 2, year_built := 1985,
         segment := some "FANCY" }] 3 =
      get_house_by_id_hm
      [{ id := 3, price := 120, area := 60, bedrooms := 2, year_built := 1985,
         segment := some "FANCY" }] 3 ∧
    calculate_average_price
      [{ id := 3, price := 120, area := 60, bedrooms := 2, year_built := 1985,
         segment := some "FANCY" }] none =
      calculate_average_price_hm
      [{ id := 3, price := 120, area := 60, bedrooms := 2, year_built := 1985,
         segment := some "FANCY" }] none ∧
    get_houses_that_meet_requirements
      [{ id := 3, price := 120, area := 60, bedrooms := 2, year_built := 1985,
         segment := some "FANCY" }] 500 Segment.FANCY.name =
      Except.ok (get_houses_that_meet_requirements_hm
        [{ id := 3, price := 120, area := 60, bedrooms := 2, year_built := 1985,
           segment := some "FANCY" }] 500 Segment.FANCY) :=
  ⟨(market_classes_equiv _ 3 none 500 Segment.FANCY).1,
   (market_classes_equiv _ 3 none 500 Segment.FANCY).2.1,
   (market_classes_equiv _ 3 none 500 Segment.FANCY).2.2 (by decide)⟩

/-- The fixed `down_payment_rate = 0.2` local of `Consumer.buy_a_house`. -/
def down_payment_rate : ℚ := 2/10

/-- The segment-conditioned candidate pool of `Consumer.buy_a_house`
followed by the minimum-bedroom filter, over the market's house list in
its existing order.  Houses are paired with their index in the list,
standing for the Python object reference.  The Python `else` fallback
branch coincides with the FANCY branch and is unreachable for the closed
three-member enum. -/
def candidate_houses (c : Consumer) (houses : List House) : List (Nat × House) :=
  let base : List (Nat × House) :=
    match c.segment with
    | Segment.FANCY => houses.enum.filter fun p : Nat × House => p.2.available
    | Segment.OPTIMIZER => houses.enum.filter fun p : Nat × House =>
        p.2.available && decide (p.2.area > 0) &&
          decide (p.2.price / p.2.area < c.annual_income / 12)
    | Segment.AVERAGE => houses.enum.filter fun p : Nat × House =>
        p.2.available && decide (p.2.price < calculate_average_price houses none)
  base.filter fun p : Nat × House => decide (p.2.bedrooms ≥ c.children_number + 1)

/-- `Consumer.buy_a_house` of `consumers.py`: take the first candidate
whose 20% down payment fits in savings; set the house reference,
decrement savings, and mark the house sold in the market list.  When no
candidate qualifies, `self.house = None`. -/
def buy_a_house (c : Consumer) (houses : List House) : Consumer × List House :=
  match (candidate_houses c houses).find? fun p : Nat × House =>
      decide (c.savings ≥ p.2.price * down_payment_rate) with
  | some p =>
      ({ c with house := some p.1,
                savings := c.savings - p.2.price * down_payment_rate },
       houses.set p.1 (sell_house p.2))
  | none => ({ c with house := none }, houses)

/-- The transaction loop of `Simulation.clean_the_market`: each consumer
in order attempts to buy from the shared market, threading the mutated
house list. -/
def clean_the_market : List Consumer → List House → List Consumer × List House
  | [], houses => ([], houses)
  | c :: cs, houses =>
    let p := buy_a_house c houses
    let q := clean_the_market cs p.2
    (p.1 :: q.1, q.2)

/-- Helper: the house at index `k` is recorded as sold in market `m`. -/
def SoldAt (m : List House) (k : Nat) : Prop :=
  ∃ h, m[k]? = some h ∧ h.available = false

/-- Helper: unfolding equation of `clean_the_market` on a cons cell. -/
theorem clean_cons (c : Consumer) (cs : List Consumer) (m : List House) :
    clean_the_market (c :: cs) m =
      ((buy_a_house c m).1 :: (clean_the_market cs (buy_a_house c m).2).1,
       (clean_the_market cs (buy_a_house c m).2).2) := rfl

/-- Helper: a selected candidate is present in the market at its index
and is available there — every segment branch filters on `available`. -/
theorem candidate_available {c : Consumer} {m : List House} {k : Nat} {h : House}
    (hmem : (k, h) ∈ candidate_houses c m) :
    m[k]? = some h ∧ h.available = true := by
  cases hseg : c.segment with
  | FANCY =>
    simp only [candidate_houses, hseg, List.mem_filter] at hmem
    obtain ⟨⟨henum, hav⟩, _⟩ := hmem
    exact ⟨List.mk_mem_enum_iff_getElem?.mp henum, hav⟩
  | OPTIMIZER =>
    simp only [candidate_houses, hseg, List.mem_filter, Bool.and_eq_true] at hmem
    obtain ⟨⟨henum, ⟨⟨hav, _⟩, _⟩⟩, _⟩ := hmem
    exact ⟨List.mk_mem_enum_iff_getElem?.mp henum, hav⟩
  | AVERAGE =>
    simp only [candidate_houses, hseg, List.mem_filter, Bool.and_eq_true] at hmem
    obtain ⟨⟨henum, ⟨hav, _⟩⟩, _⟩ := hmem
    exact ⟨List.mk_mem_enum_iff_getElem?.mp henum, hav⟩

/-- Helper: `buy_a_house` when no candidate is affordable. -/
theorem buy_a_house_of_find?_none {c : Consumer} {m : List House}
    (hf : (candidate_houses c m).find? (fun p : Nat × House =>
      decide (c.savings ≥ p.2.price * down_payment_rate)) = none) :
    buy_a_house c m = ({ c with house := none }, m) := by
  unfold buy_a_house
  rw [hf]

/-- Helper: `buy_a_house` when the first affordable candidate is `p`. -/
theorem buy_a_house_of_find?_some {c : Consumer} {m : List House} {p : Nat × House}
    (hf : (candidate_houses c m).find? (fun p : Nat × House =>
      decide (c.savings ≥ p.2.price * down_payment_rate)) = some p) :
    buy_a_house c m =
      ({ c with house := some p.1,
                savings := c.savings - p.2.price * down_payment_rate },
       m.set p.1 (sell_house p.2)) := by
  unfold buy_a_house
  rw [hf]

/-- Helper: a house already sold stays sold across one purchase attempt. -/
theorem soldAt_buy {m : List House} {k : Nat} (c : Consumer)
    (hs : SoldAt m k) : SoldAt (buy_a_house c m).2 k := by
  obtain ⟨h0, hget, hav⟩ := hs
  rcases hf : (candidate_houses c m).find? (fun p : Nat × House =>
      decide (c.savings ≥ p.2.price * down_payment_rate)) with _ | p
  · rw [buy_a_house_of_find?_none hf]
    exact ⟨h0, hget, hav⟩
  · rw [buy_a_house_of_find?_some hf]
    by_cases hk : p.1 = k
    · subst hk
      have hmem := List.mem_of_find?_eq_some hf
      have hlt : p.1 < m.length := by
        obtain ⟨hlt, _⟩ := List.getElem?_eq_some.mp (candidate_available hmem).1
        exact hlt
      exact ⟨sell_house p.2, List.getElem?_set_eq_of_lt _ hlt, rfl⟩
    · refine ⟨h0, ?_, hav⟩
      rw [List.getElem?_set_ne hk]
      exact hget

/-- Helper: a house already sold stays sold across the whole clearing pass. -/
theorem soldAt_clean {k : Nat} :
    ∀ (cs : List Consumer) (m : List House),
      SoldAt m k → SoldAt (clean_the_market cs m).2 k
  | [], _, hs => hs
  | c :: cs, m, hs => by
    rw [clean_cons]
    exact soldAt_clean cs _ (soldAt_buy c hs)

/-- Helper: when a consumer's purchase attempt records house `k`, house
`k` is sold in the resulting market. -/
theorem buy_ref_sold {c : Consumer} {m : List House} {k : Nat}
    (hk : (buy_a_house c m).1.house = some k) :
    SoldAt (buy_a_house c m).2 k := by
  rcases hf : (candidate_houses c m).find? (fun p : Nat × House =>
      decide (c.savings ≥ p.2.price * down_payment_rate)) with _ | p
  · rw [buy_a_house_of_find?_none hf] at hk
    simp at hk
  · rw [buy_a_house_of_find?_some hf] at hk ⊢
    obtain rfl : p.1 = k := by injection hk
    have hmem := List.mem_of_find?_eq_some hf
    have hlt : p.1 < m.length := by
      obtain ⟨hlt, _⟩ := List.getElem?_eq_some.mp (candidate_available hmem).1
      exact hlt
    exact ⟨sell_house p.2, List.getElem?_set_eq_of_lt _ hlt, rfl⟩

/-- Helper: a consumer never selects a house already sold in the market
it shops from (candidates are filtered on `available`). -/
theorem buy_not_sold {c : Consumer} {m : List House} {k : Nat}
    (hs : SoldAt m k) : (buy_a_house c m).1.house ≠ some k := by
  rcases hf : (candidate_houses c m).find? (fun p : Nat × House =>
      decide (c.savings ≥ p.2.price * down_payment_rate)) with _ | p
  · rw [buy_a_house_of_find?_none hf]
    simp
  · rw [buy_a_house_of_find?_some hf]
    intro hk
    obtain rfl : p.1 = k := by injection hk
    obtain ⟨h0, hget0, hav0⟩ := hs
    have hmem := List.mem_of_find?_eq_some hf
    obtain ⟨hget1, hav1⟩ := candidate_available hmem
    rw [hget0] at hget1
    obtain rfl : h0 = p.2 := by injection hget1
    rw [hav0] at hav1
    exact Bool.false_ne_true hav1

/-- Helper: once house `k` is sold, no consumer processed afterwards in
the clearing pass ends up referencing it. -/
theorem clean_no_ref {k : Nat} :
    ∀ (cs : List Consumer) (m : List House), SoldAt m k →
      ∀ b ∈ (clean_the_market cs m).1, b.house ≠ some k
  | [], _, _, b, hb => absurd hb (List.not_mem_nil b)
  | c :: cs, m, hs, b, hb => by
    rw [clean_cons] at hb
    rcases List.mem_cons.mp hb with rfl | hb'
    · exact buy_not_sold hs
    · exact clean_no_ref cs _ (soldAt_buy c hs) b hb'

/-- Helper: the clearing pass yields pairwise-distinct house references,
and every reference points at a sold house in the final market. -/
theorem clean_core :
    ∀ (cs : List Consumer) (m : List House),
      ((clean_the_market cs m).1.Pairwise fun a b =>
        ∀ k, a.house = some k → b.house ≠ some k) ∧
      ∀ c' ∈ (clean_the_market cs m).1, ∀ k, c'.house = some k →
        SoldAt (clean_the_market cs m).2 k
  | [], m => by simp [clean_the_market]
  | c :: cs, m => by
    have IH := clean_core cs (buy_a_house c m).2
    rw [clean_cons]
    constructor
    · refine List.Pairwise.cons ?_ IH.1
      intro b hb k hck
      exact clean_no_ref cs _ (buy_ref_sold hck) b hb
    · intro c' hc' k hk
      rcases List.mem_cons.mp hc' with rfl | hc''
      · exact soldAt_clean cs _ (buy_ref_sold hk)
      · exact IH.2 c' hc'' k hk

/-- C2: after one clearing pass on a freshly built market and population
(all consumers initially houseless, all houses initially available), no
two consumers reference the same house, and every referenced house is
marked unavailable in the final market.  The theorem quantifies over the
processing order of the consumer list, covering every ordering mechanism
of `clean_the_market`. -/
theorem clean_the_market_exclusivity (cs : List Consumer) (m : List House)
    (hcs : ∀ c ∈ cs, c.house = none) (hm : ∀ h ∈ m, h.available = true) :
    ((clean_the_market cs m).1.Pairwise fun a b =>
      ∀ k, a.house = some k → b.house ≠ some k) ∧
    ∀ c' ∈ (clean_the_market cs m).1, ∀ k, c'.house = some k →
      ∃ h, (clean_the_market cs m).2[k]? = some h ∧ h.available = false :=
  ⟨(clean_core cs m).1, fun c' hc' k hk => (clean_core cs m).2 c' hc' k hk⟩

/-- Witness for C2 on a concrete two-consumer, one-house run. -/
theorem clean_the_market_exclusivity_witness :
    ((clean_the_market
      [{ id := 1, annual_income := 50000, children_number := 0,
         segment := Segment.FANCY, house := none, savings := 100 },
       { id := 2, annual_income := 40000, children_number := 0,
         segment := Segment.FANCY, house := none, savings := 100 }]
      [{ id := 7, price := 500, area := 10, bedrooms := 1, year_built := 2000 }]).1.Pairwise
        fun a b => ∀ k, a.house = some k → b.house ≠ some k) ∧
    ∀ c' ∈ (clean_the_market
      [{ id := 1, annual_income := 50000, children_number := 0,
         segment := Segment.FANCY, house := none, savings := 100 },
       { id := 2, annual_income := 40000, children_number := 0,
         segment := Segment.FANCY, house := none, savings := 100 }]
      [{ id := 7, price := 500, area := 10, bedrooms := 1, year_built := 2000 }]).1,
      ∀ k, c'.house = some k →
        ∃ h, (clean_the_market
          [{ id := 1, annual_income := 50000, children_number := 0,
             segment := Segment.FANCY, house := none, savings := 100 },
           { id := 2, annual_income := 40000, children_number := 0,
             segment := Segment.FANCY, house := none, savings := 100 }]
          [{ id := 7, price := 500, area := 10, bedrooms := 1,
             year_built := 2000 }]).2[k]? = some h ∧ h.available = false :=
  clean_the_market_exclusivity _ _ (by decide) (by decide)

/-- C3: `buy_a_house` scans its filtered candidates in the market's
existing order and buys the first one whose 20% down payment fits in
savings (the reference is the `find?` over the candidate list — no
re-sorting by price or any other key); concretely, with two affordable
eligible candidates ordered expensive-first, the consumer buys the
expensive one at index 0, pays its down payment, and that house — not
the cheap one — is marked sold. -/
theorem buy_a_house_first_fit :
    (∀ (c : Consumer) (m : List House),
      (buy_a_house c m).1.house =
        ((candidate_houses c m).find? fun p : Nat × House =>
          decide (c.savings ≥ p.2.price * down_payment_rate)).map Prod.fst) ∧
    ((60000 : ℚ) ≥ 300000 * down_payment_rate ∧
     (60000 : ℚ) ≥ 100000 * down_payment_rate ∧
     (100000 : ℚ) < 300000 ∧
     (buy_a_house
        { id := 1, annual_income := 0, children_number := 0,
          segment := Segment.FANCY, house := none, savings := 60000 }
        [{ id := 1, price := 300000, area := 1000, bedrooms := 3, year_built := 2000 },
         { id := 2, price := 100000, area := 1000, bedrooms := 3, year_built := 2000 }]) =
      ({ id := 1, annual_income := 0, children_number := 0,
         segment := Segment.FANCY, house := some 0,
         savings := 60000 - 300000 * down_payment_rate },
       [sell_house { id := 1, price := 300000, area := 1000, bedrooms := 3,
                     year_built := 2000 },
        { id := 2, price := 100000, area := 1000, bedrooms := 3,
          year_built := 2000 }])) := by
  constructor
  · intro c m
    rcases hf : (candidate_houses c m).find? (fun p : Nat × House =>
        decide (c.savings ≥ p.2.price * down_payment_rate)) with _ | p
    · rw [buy_a_house_of_find?_none hf]
      rfl
    · rw [buy_a_house_of_find?_some hf]
      rfl
  · refine ⟨by norm_num [down_payment_rate], by norm_num [down_payment_rate],
      by norm_num, ?_⟩
    have hcand : candidate_houses
        { id := 1, annual_income := 0, children_number := 0,
          segment := Segment.FANCY, house := none, savings := 60000 }
        [{ id := 1, price := 300000, area := 1000, bedrooms := 3, year_built := 2000 },
         { id := 2, price := 100000, area := 1000, bedrooms := 3, year_built := 2000 }] =
        [(0, { id := 1, price := 300000, area := 1000, bedrooms := 3, year_built := 2000 }),
         (1, { id := 2, price := 100000, area := 1000, bedrooms := 3, year_built := 2000 })] := rfl
    have hfind : (candidate_houses
        { id := 1, annual_income := 0, children_number := 0,
          segment := Segment.FANCY, house := none, savings := 60000 }
        [{ id := 1, price := 300000, area := 1000, bedrooms := 3, year_built := 2000 },
         { id := 2, price := 100000, area := 1000, bedrooms := 3, year_built := 2000 }]).find?
          (fun p : Nat × House => decide
            (({ id := 1, annual_income := 0, children_number := 0,
                segment := Segment.FANCY, house := none,
                savings := 60000 } : Consumer).savings ≥
              p.2.price * down_payment_rate)) =
        some (0, { id := 1, price := 300000, area := 1000, bedrooms := 3,
                   year_built := 2000 }) := by
      rw [hcand, List.find?_cons_of_pos]
      rw [decide_eq_true_eq]
      show (60000 : ℚ) ≥ 300000 * down_payment_rate
      norm_num [down_payment_rate]
    rw [buy_a_house_of_find?_some hfind]
    rfl

/-- `Simulation.compute_owners_population_rate` of `simulation.py`:
`owners / len(consumers)`.  Python's division by a zero length raises
`ZeroDivisionError`, modelled as `none`. -/
def compute_owners_population_rate (consumers : List Consumer) : Option ℚ :=
  if consumers.length = 0 then none
  else some (((consumers.filter fun c => c.house.isSome).length : ℚ) /
    (consumers.length : ℚ))

/-- `Simulation.compute_houses_availability_rate` of `simulation.py`:
`available_houses / len(houses)`, raising (modelled `none`) on an empty
inventory. -/
def compute_houses_availability_rate (houses : List House) : Option ℚ :=
  if houses.length = 0 then none
  else some (((houses.filter fun h => h.available).length : ℚ) /
    (houses.length : ℚ))

/-- C4: on a non-empty population/inventory both rate queries succeed
with a value in [0, 1]; on an empty population/inventory they raise
(`none`) rather than silently returning 0. -/
theorem rates_spec (consumers : List Consumer) (houses : List House) :
    (consumers ≠ [] → ∃ r, compute_owners_population_rate consumers = some r ∧
      0 ≤ r ∧ r ≤ 1) ∧
    (houses ≠ [] → ∃ r, compute_houses_availability_rate houses = some r ∧
      0 ≤ r ∧ r ≤ 1) ∧
    compute_owners_population_rate [] = none ∧
    compute_houses_availability_rate [] = none := by
  refine ⟨fun hc => ?_, fun hh => ?_, rfl, rfl⟩
  · have hlen : consumers.length ≠ 0 := fun h0 => hc (List.length_eq_zero.mp h0)
    refine ⟨_, by rw [compute_owners_population_rate, if_neg hlen], ?_, ?_⟩
    · positivity
    · rw [div_le_one (by exact_mod_cast Nat.pos_of_ne_zero hlen)]
      exact_mod_cast List.length_filter_le _ _
  · have hlen : houses.length ≠ 0 := fun h0 => hh (List.length_eq_zero.mp h0)
    refine ⟨_, by rw [compute_houses_availability_rate, if_neg hlen], ?_, ?_⟩
    · positivity
    · rw [div_le_one (by exact_mod_cast Nat.pos_of_ne_zero hlen)]
      exact_mod_cast List.length_filter_le _ _

/-- Witness for C4 on a one-consumer population and one-house inventory. -/
theorem rates_spec_witness :
    (∃ r, compute_owners_population_rate
      [{ id := 1, annual_income := 1000, children_number := 0,
         segment := Segment.AVERAGE, house := none, savings := 0 }] = some r ∧
      0 ≤ r ∧ r ≤ 1) ∧
    ∃ r, compute_houses_availability_rate
      [{ id := 1, price := 100, area := 10, bedrooms := 2,
         year_built := 2000 }] = some r ∧ 0 ≤ r ∧ r ≤ 1 :=
  ⟨(rates_spec
      [{ id := 1, annual_income := 1000, children_number := 0,
         segment := Segment.AVERAGE, house := none, savings := 0 }]
      [{ id := 1, price := 100, area := 10, bedrooms := 2,
         year_built := 2000 }]).1 (by simp),
   (rates_spec
      [{ id := 1, annual_income := 1000, children_number := 0,
         segment := Segment.AVERAGE, house := none, savings := 0 }]
      [{ id := 1, price := 100, area := 10, bedrooms := 2,
         year_built := 2000 }]).2.1 (by simp)⟩

/-- Enumeration `CleaningMarketMechanism` of `simulation.py`. -/
inductive CleaningMarketMechanism where
  | INCOME_ORDER_DESCENDANT
  | INCOME_ORDER_ASCENDANT
  | RANDOM
deriving DecidableEq, Repr

/-- Dataclass `Simulation` of `simulation.py`, in the state reached after
`create_housing_market` and `create_consumers`: the raw CSV records and
the random generation of the population are external inputs, so the
built `housing_market` house list and `consumers` list are carried
directly, together with the configuration fields. -/
structure Simulation where
  consumers_number : Nat
  years : Nat
  cleaning_market_mechanism : CleaningMarketMechanism
  down_payment_percentage : ℚ := 2/10
  saving_rate : ℚ := 3/10
  interest_rate : ℚ := 5/100
  housing_market : List House
  consumers : List Consumer

/-- The ordering step of `Simulation.clean_the_market`: a stable sort by
income (descending or ascending), or — for the RANDOM mechanism —
`random.shuffle`, whose outcome under the ambient generator is passed in
as the `shuffle` function. -/
def order_consumers (mech : CleaningMarketMechanism)
    (shuffle : List Consumer → List Consumer)
    (cs : List Consumer) : List Consumer :=
  match mech with
  | CleaningMarketMechanism.INCOME_ORDER_DESCENDANT =>
      cs.mergeSort fun a b => decide (b.annual_income ≤ a.annual_income)
  | CleaningMarketMechanism.INCOME_ORDER_ASCENDANT =>
      cs.mergeSort fun a b => decide (a.annual_income ≤ b.annual_income)
  | CleaningMarketMechanism.RANDOM => shuffle cs

/-- `Simulation.clean_the_market` of `simulation.py`: order the consumer
population by the configured mechanism, then run the sequential
purchase pass against the shared market. -/
def clean_the_market_sim (shuffle : List Consumer → List Consumer)
    (s : Simulation) : List Consumer × List House :=
  clean_the_market
    (order_consumers s.cleaning_market_mechanism shuffle s.consumers)
    s.housing_market

/-- C10: simulation outcomes are independent of the
`down_payment_percentage` field — `Consumer.buy_a_house` hard-codes a
0.2 down-payment rate and never reads the field — so two configurations
identical except for that field produce identical consumer assignments,
savings, and house availability. -/
theorem down_payment_percentage_noninterference
    (shuffle : List Consumer → List Consumer) (s : Simulation) (d : ℚ) :
    clean_the_market_sim shuffle { s with down_payment_percentage := d } =
      clean_the_market_sim shuffle s := rfl
